import Mathlib

/-!
Shallow embedding of `src/modbus_rtu_lib.py` (class `Modbus`), a master-side
Modbus RTU client.  Bytes are modelled as `List Nat` with entries below 256.
Python exceptions become the `ModbusError` taxonomy; the serial port becomes
an explicit `PortState` record whose `writes` and `reads` fields log every
transport call, so that "the transport was never invoked" is statable.
-/

set_option maxRecDepth 100000

namespace ModbusRtuLib

/-- Modelled from the spec: the `crc16` module imported by
`modbus_rtu_lib.py` is not under `src/`.  Per the spec's CRC-16 Engine
contract: initial register 0xFFFF, polynomial 0xA001 applied LSB-first,
8 bits per input byte.  One bit step of the CRC register. -/
def crc16_update_bit (crc : Nat) : Nat :=
  if crc % 2 = 1 then (crc / 2) ^^^ 0xA001 else crc / 2

/-- Modelled from the spec: `k` bit steps of the CRC register. -/
def crc16_bits : Nat → Nat → Nat
  | 0, crc => crc
  | k + 1, crc => crc16_bits k (crc16_update_bit crc)

/-- Modelled from the spec: absorb one input byte into the CRC register. -/
def crc16_update_byte (crc b : Nat) : Nat :=
  crc16_bits 8 (crc ^^^ b % 256)

/-- Modelled from the spec: the 16-bit CRC register after absorbing `data`. -/
def crc16_word (data : List Nat) : Nat :=
  data.foldl crc16_update_byte 0xFFFF

/-- Modelled from the spec: `crc16(data)` returns the two CRC bytes in
little-endian order (low byte first), matching the wire layout. -/
def crc16 (data : List Nat) : List Nat :=
  [crc16_word data % 256, crc16_word data / 256 % 256]

/-- `struct.pack('>H', n)`: a 16-bit value as two big-endian bytes. -/
def pack16be (n : Nat) : List Nat :=
  [n / 256 % 256, n % 256]

/-- `int.from_bytes(data, 'big')`: big-endian unsigned interpretation. -/
def int_from_bytes_be (data : List Nat) : Nat :=
  data.foldl (fun acc b => acc * 256 + b) 0

/-- The five failure kinds of the client, one per distinct Python exception:
`ValueError` on `invalid_device_addr`, `ValueError` on an invalid
integer/float format, `TimeoutError` on `no_respond`, `CrcError`, and
`FunctionError`. -/
inductive ModbusError where
  | invalidAddress
  | invalidFormat
  | noResponse
  | crcMismatch
  | unexpectedFunction
deriving DecidableEq, Repr

/-- `Modbus._check_device_addr`: the source tests
`if not 0 >= device_addr <= 255`, a chained comparison equal to
`not (0 >= device_addr and device_addr <= 255)`.  The address may be any
Python int, so the argument is `Int`. -/
def check_device_addr (device_addr : Int) : Except ModbusError Unit :=
  if ¬(0 ≥ device_addr ∧ device_addr ≤ 255) then .error .invalidAddress
  else .ok ()

/-- `Modbus._check_response`: a zero-length response is a timeout. -/
def check_response (response : List Nat) : Except ModbusError Unit :=
  if response.length = 0 then .error .noResponse else .ok ()

/-- `Modbus._check_crc`: `crc16(response[0:-2]) != response[-2:]` fails.
Python slice `response[0:-2]` is `take (length - 2)` and `response[-2:]`
is `drop (length - 2)` (both degenerate gracefully on short lists, as in
Python). -/
def check_crc (response : List Nat) : Except ModbusError Unit :=
  if crc16 (response.take (response.length - 2))
      ≠ response.drop (response.length - 2) then .error .crcMismatch
  else .ok ()

/-- `Modbus._check_command`: `response[1:2] != command` fails.  The slice
`response[1:2]` is `(response.drop 1).take 1`. -/
def check_command (command response : List Nat) : Except ModbusError Unit :=
  if (response.drop 1).take 1 ≠ command then .error .unexpectedFunction
  else .ok ()

/-- The validation tail of `Modbus._return_bytes` (lines 109-113): check
non-emptiness, then CRC, then the echoed function code, in that order,
and on success return the payload slice `response[3:-2]`, i.e.
`(response.take (response.length - 2)).drop 3`. -/
def check_and_extract (command response : List Nat) :
    Except ModbusError (List Nat) :=
  match check_response response with
  | .error e => .error e
  | .ok _ =>
    match check_crc response with
    | .error e => .error e
    | .ok _ =>
      match check_command command response with
      | .error e => .error e
      | .ok _ => .ok ((response.take (response.length - 2)).drop 3)

/-- The serial port: `incoming` is the byte stream the device side has made
available to `port.read`; `writes` logs every `port.write` payload and
`reads` logs the `max_len` argument of every `port.read`, so a claim can
state that the transport was (or was not) invoked. -/
structure PortState where
  incoming : List Nat
  writes : List (List Nat)
  reads : List Nat
deriving DecidableEq, Repr

/-- `port.write(data)`. -/
def port_write (s : PortState) (data : List Nat) : PortState :=
  { incoming := s.incoming, writes := s.writes ++ [data], reads := s.reads }

/-- `port.read(maxLen)` on a serial line: consume up to `maxLen` bytes of the
incoming stream (fewer when the stream runs dry, as on a timeout). -/
def port_read (s : PortState) (maxLen : Nat) : List Nat × PortState :=
  (s.incoming.take maxLen,
   { incoming := s.incoming.drop maxLen,
     writes := s.writes,
     reads := s.reads ++ [maxLen] })

/-- The request bytes built by `Modbus._return_bytes` (lines 96-102):
`bytes(device_addr) + command + struct.pack('>H', start) +
struct.pack('>H', amount)` followed by its CRC.  Python's `bytes(n)` on an
int `n ≥ 0` yields `n` zero bytes, hence the `List.replicate`. -/
def build_request (command : List Nat)
    (device_addr start_reg_addr regs_amount : Nat) : List Nat :=
  let request_wo_crc := List.replicate device_addr 0 ++ command
      ++ pack16be start_reg_addr ++ pack16be regs_amount
  request_wo_crc ++ crc16 request_wo_crc

/-- `Modbus._return_bytes`: check the device address, build and write the
request, optionally drain the echo, read `regs_amount * 2 + 5` bytes, then
validate and slice the response.  A negative `device_addr` would pass the
(inverted) address check but crash in `bytes(device_addr)` before any I/O,
so the pipeline is modelled on `Nat` addresses. -/
def return_bytes (echo : Bool) (command : List Nat)
    (device_addr start_reg_addr regs_amount : Nat) (s : PortState) :
    Except ModbusError (List Nat) × PortState :=
  match check_device_addr (device_addr : Int) with
  | .error e => (.error e, s)
  | .ok _ =>
    let request := build_request command device_addr start_reg_addr regs_amount
    let s1 := port_write s request
    let s2 := if echo then (port_read s1 request.length).2 else s1
    let rp := port_read s2 (regs_amount * 2 + 5)
    (check_and_extract command rp.1, rp.2)

/-- Exception propagation from `_return_bytes` into a public operation:
on success apply the decoding step, otherwise re-raise. -/
def map_ok (f : α → β) :
    Except ModbusError α × PortState → Except ModbusError β × PortState
  | (.error e, s) => (.error e, s)
  | (.ok a, s) => (.ok (f a), s)

/-- Little-endian binary digits of `n`, no leading zeros, with structural
fuel so that concrete values reduce in the kernel; `bin_digits` supplies
fuel `n`, which always suffices. -/
def bin_digits_fuel : Nat → Nat → List Nat
  | 0, _ => []
  | fuel + 1, n => if n = 0 then [] else n % 2 :: bin_digits_fuel fuel (n / 2)

/-- Little-endian binary digits of `n`, no leading zeros (empty for 0). -/
def bin_digits (n : Nat) : List Nat :=
  bin_digits_fuel n n

/-- `bin(n)[2:]` as a digit list: the binary expansion of `n`, most
significant bit first, no leading zeros; `bin(0)[2:]` is the single
digit `0`. -/
def bin_expansion (n : Nat) : List Nat :=
  if n = 0 then [0] else (bin_digits n).reverse

/-- The decoding step shared by `read_do_integers` and `read_di_integers`:
`[int(i) for i in bin(int.from_bytes(byte_data, 'big'))[2:]]`. -/
def decode_bits (byte_data : List Nat) : List Nat :=
  bin_expansion (int_from_bytes_be byte_data)

/-- `Modbus.read_do_integers` (read coils, function code 0x01). -/
def read_do_integers (echo : Bool)
    (device_addr start_reg_addr ints_amount : Nat) (s : PortState) :
    Except ModbusError (List Nat) × PortState :=
  map_ok decode_bits
    (return_bytes echo [0x01] device_addr start_reg_addr ints_amount s)

/-- `Modbus.read_di_integers` (read discrete inputs, function code 0x02). -/
def read_di_integers (echo : Bool)
    (device_addr start_reg_addr ints_amount : Nat) (s : PortState) :
    Except ModbusError (List Nat) × PortState :=
  map_ok decode_bits
    (return_bytes echo [0x02] device_addr start_reg_addr ints_amount s)

/-- The generic bit-reading pipeline both coil and discrete-input reads
instantiate, parameterized by the function-code byte. -/
def read_bits (echo : Bool) (command : List Nat)
    (device_addr start_reg_addr ints_amount : Nat) (s : PortState) :
    Except ModbusError (List Nat) × PortState :=
  map_ok decode_bits
    (return_bytes echo command device_addr start_reg_addr ints_amount s)

/-- Two's-complement reading of a `bits`-wide unsigned value, as
`struct.unpack` does for the signed format characters. -/
def toSigned (bits n : Nat) : Int :=
  if n < 2 ^ (bits - 1) then (n : Int) else (n : Int) - 2 ^ bits

/-- `struct.unpack('>' + c * count, data)` for a signed format character of
byte width `size`: peel off `count` consecutive `size`-byte big-endian
chunks, each read as a two's-complement integer. -/
def unpack_ints (size : Nat) : Nat → List Nat → List Int
  | 0, _ => []
  | c + 1, data =>
      toSigned (8 * size) (int_from_bytes_be (data.take size))
        :: unpack_ints size c (data.drop size)

/-- `Modbus.read_ao_integers` (function code 0x03).  The format map is the
source's if/elif chain: `short` is 1 register per value, `long` 2, and
`long long` 4, any other string raising the invalid-integer-format error
before `_return_bytes` is called.  The source line `int_format_char.upper()`
discards its result, so the unpacking stays with the lowercase (signed)
format character whatever `is_signed` is. -/
def read_ao_integers (echo : Bool)
    (device_addr start_reg_addr ints_amount : Nat)
    (int_format : String) (is_signed : Bool) (s : PortState) :
    Except ModbusError (List Int) × PortState :=
  let fmt : Option (Nat × Nat) :=
    if int_format = "short" then some (2, ints_amount)
    else if int_format = "long" then some (4, ints_amount * 2)
    else if int_format = "long long" then some (8, ints_amount * 4)
    else none
  match fmt with
  | none => (.error .invalidFormat, s)
  | some (size, regs_amount) =>
      map_ok (unpack_ints size ints_amount)
        (return_bytes echo [0x03] device_addr start_reg_addr regs_amount s)

/-- The `size`-byte chunks `struct.unpack('>' + c * count, data)` would hand
to IEEE-754 decoding; float bit-level semantics stays outside the model, so
the float read returns the raw chunks. -/
def chunk_bytes (size : Nat) : Nat → List Nat → List (List Nat)
  | 0, _ => []
  | c + 1, data => data.take size :: chunk_bytes size c (data.drop size)

/-- `Modbus.read_ao_floats` (function code 0x03): `float` is 2 registers per
value, `double` 4, any other string raising the invalid-float-format error
before `_return_bytes` is called. -/
def read_ao_floats (echo : Bool)
    (device_addr start_reg_addr floats_amount : Nat)
    (float_precision : String) (s : PortState) :
    Except ModbusError (List (List Nat)) × PortState :=
  let fmt : Option (Nat × Nat) :=
    if float_precision = "float" then some (4, floats_amount * 2)
    else if float_precision = "double" then some (8, floats_amount * 4)
    else none
  match fmt with
  | none => (.error .invalidFormat, s)
  | some (size, regs_amount) =>
      map_ok (chunk_bytes size floats_amount)
        (return_bytes echo [0x03] device_addr start_reg_addr regs_amount s)

/-- The request frame exactly as the spec states it:
`[address][function][start_hi][start_lo][count_hi][count_lo][crc_lo][crc_hi]`,
the CRC computed over the preceding six bytes.  Spec-side definition, kept
for comparison with `build_request`. -/
def spec_request_frame (device_addr function_code start count : Nat) :
    List Nat :=
  let head := [device_addr, function_code] ++ pack16be start ++ pack16be count
  head ++ crc16 head

/-- A freshly opened port with empty logs and a given incoming stream. -/
def fresh_port (incoming : List Nat) : PortState :=
  { incoming := incoming, writes := [], reads := [] }

/-- Spec-side encoding of one signed 32-bit integer into four big-endian
bytes (two's complement), as `struct.pack` with a signed 32-bit format
would produce it. -/
def encode_int32_be (i : Int) : List Nat :=
  let n := (i % 2 ^ 32).toNat
  [n / 2 ^ 24 % 256, n / 2 ^ 16 % 256, n / 2 ^ 8 % 256, n % 256]

section Helpers

/-- With enough fuel, `bin_digits_fuel` computes `Nat.digits 2`. -/
theorem bin_digits_fuel_eq_digits (fuel : Nat) :
    ∀ n, n ≤ fuel → bin_digits_fuel fuel n = Nat.digits 2 n := by
  induction fuel with
  | zero =>
      intro n hn
      obtain rfl : n = 0 := Nat.le_zero.mp hn
      simp [bin_digits_fuel]
  | succ fuel ih =>
      intro n hn
      by_cases h0 : n = 0
      · simp [bin_digits_fuel, h0]
      · rw [bin_digits_fuel, if_neg h0,
          Nat.digits_def' (by norm_num : 1 < 2) (Nat.pos_of_ne_zero h0),
          ih (n / 2) (by omega)]

/-- `bin_digits` computes the little-endian base-2 digits. -/
theorem bin_digits_eq_digits (n : Nat) : bin_digits n = Nat.digits 2 n :=
  bin_digits_fuel_eq_digits n n le_rfl

/-- The decoding step never touches the port. -/
theorem map_ok_snd (f : α → β) (p : Except ModbusError α × PortState) :
    (map_ok f p).2 = p.2 := by
  obtain ⟨r, s⟩ := p
  cases r <;> rfl

/-- With echo off and a valid (per the coded check) address, a pipeline run
logs exactly one more read, of `regs_amount * 2 + 5` bytes. -/
theorem return_bytes_reads (command : List Nat)
    (device_addr start_reg_addr regs_amount : Nat) (s : PortState)
    (h : check_device_addr (device_addr : Int) = .ok ()) :
    (return_bytes false command device_addr start_reg_addr regs_amount s).2.reads
      = s.reads ++ [regs_amount * 2 + 5] := by
  unfold return_bytes
  rw [h]
  rfl

/-- Peeling one full chunk off the front of the unpacking. -/
theorem unpack_ints_cons (size c : Nat) (chunk data : List Nat)
    (h : chunk.length = size) :
    unpack_ints size (c + 1) (chunk ++ data)
      = toSigned (8 * size) (int_from_bytes_be chunk)
          :: unpack_ints size c data := by
  unfold unpack_ints
  rw [← h, List.take_left, List.drop_left]
  cases c <;> rfl

/-- Decoding one encoded signed 32-bit integer gives it back. -/
theorem toSigned_encode_int32 (i : Int)
    (h1 : -(2 ^ 31) ≤ i) (h2 : i < 2 ^ 31) :
    toSigned 32 (int_from_bytes_be (encode_int32_be i)) = i := by
  unfold toSigned int_from_bytes_be encode_int32_be
  simp only [List.foldl]
  have e1 : (2 : Int) ^ 31 = 2147483648 := by norm_num
  have e2 : (2 : Int) ^ 32 = 4294967296 := by norm_num
  have e3 : (2 : Nat) ^ (32 - 1) = 2147483648 := by norm_num
  have e4 : (2 : Nat) ^ 24 = 16777216 := by norm_num
  have e5 : (2 : Nat) ^ 16 = 65536 := by norm_num
  have e6 : (2 : Nat) ^ 8 = 256 := by norm_num
  rw [e1] at h1 h2
  rw [e2, e3, e4, e5, e6]
  have hnn : (0 : Int) ≤ i % 4294967296 := Int.emod_nonneg i (by norm_num)
  have hub : i % 4294967296 < 4294967296 := Int.emod_lt_of_pos i (by norm_num)
  split <;> omega

/-- Bound for the big-endian value of a byte list, relative to an
accumulator. -/
theorem foldl_bytes_lt (l : List Nat) (hl : ∀ b ∈ l, b < 256) (acc : Nat) :
    l.foldl (fun a b => a * 256 + b) acc < (acc + 1) * 256 ^ l.length := by
  induction l generalizing acc with
  | nil =>
      simp only [List.foldl, List.length_nil, pow_zero, Nat.mul_one]
      omega
  | cons b t ih =>
      have hb : b < 256 := hl b (List.mem_cons_self ..)
      have ht : ∀ x ∈ t, x < 256 := fun x hx => hl x (List.mem_cons_of_mem _ hx)
      calc (b :: t).foldl (fun a b => a * 256 + b) acc
          = t.foldl (fun a b => a * 256 + b) (acc * 256 + b) := rfl
        _ < (acc * 256 + b + 1) * 256 ^ t.length := ih ht _
        _ ≤ ((acc + 1) * 256) * 256 ^ t.length := by
              have : acc * 256 + b + 1 ≤ (acc + 1) * 256 := by omega
              exact Nat.mul_le_mul_right _ this
        _ = (acc + 1) * 256 ^ (b :: t).length := by
              rw [List.length_cons, Nat.mul_assoc, ← Nat.pow_succ']

end Helpers

section RequestShape

/-- The built request, reassociated around the `bytes(device_addr)` zeros. -/
theorem build_request_decomp (command : List Nat)
    (device_addr start_reg_addr regs_amount : Nat) :
    build_request command device_addr start_reg_addr regs_amount
      = List.replicate device_addr 0
          ++ (command ++ pack16be start_reg_addr ++ pack16be regs_amount
              ++ crc16 (List.replicate device_addr 0 ++ command
                  ++ pack16be start_reg_addr ++ pack16be regs_amount)) := by
  unfold build_request
  simp [List.append_assoc]

/-- Everything before the function-code byte is the `bytes(device_addr)`
zero padding, independent of the function code. -/
theorem build_request_take_addr (command : List Nat)
    (device_addr start_reg_addr regs_amount : Nat) :
    (build_request command device_addr start_reg_addr regs_amount).take
        device_addr = List.replicate device_addr 0 := by
  rw [build_request_decomp]
  exact List.take_left' (List.length_replicate ..)

/-- The function-code byte sits at offset `device_addr` of the built
request (offset 0 for the one transmittable address, 0). -/
theorem build_request_getElem_addr (c : Nat)
    (device_addr start_reg_addr regs_amount : Nat) :
    (build_request [c] device_addr start_reg_addr regs_amount)[device_addr]?
      = some c := by
  rw [build_request_decomp]
  rw [List.getElem?_append_right (by simp)]
  simp

/-- The four bytes after the function code are the big-endian start
address and register count, independent of the function code. -/
theorem build_request_middle (c : Nat)
    (device_addr start_reg_addr regs_amount : Nat) :
    ((build_request [c] device_addr start_reg_addr regs_amount).drop
        (device_addr + 1)).take 4
      = pack16be start_reg_addr ++ pack16be regs_amount := by
  rw [build_request_decomp]
  rw [show device_addr + 1 = (List.replicate device_addr 0).length + 1 by simp]
  rw [← List.drop_drop, List.drop_left]
  rfl

end RequestShape

/-- Claim C1: the claim says the transmitted request is the 8-byte sequence
`[address][function][start_hi][start_lo][count_hi][count_lo][crc_lo][crc_hi]`
for every `device_addr` in [0, 255].  The code disagrees: `bytes(device_addr)`
yields `device_addr` zero bytes instead of one address byte, so at
`device_addr = 0` (the one address that passes the coded check and reaches
transmission) the built and written frame is the 7-byte
`[function][start_hi][start_lo][count_hi][count_lo][crc_lo][crc_hi]`, not the
claimed 8-byte frame; and at `device_addr = 17` no frame is built at all
because the inverted address check rejects it. -/
theorem c1_frame_lacks_address_byte :
    build_request [3] 0 0 10 = [3, 0, 0, 0, 10, 224, 7] ∧
    (build_request [3] 0 0 10).length = 7 ∧
    build_request [3] 0 0 10 ≠ spec_request_frame 0 3 0 10 ∧
    (return_bytes false [3] 0 0 10 (fresh_port [])).2.writes
        = [[3, 0, 0, 0, 10, 224, 7]] ∧
    (return_bytes false [3] 17 0 10 (fresh_port [])).1
        = .error .invalidAddress :=
  ⟨by decide, by decide, by decide, by rfl, by rfl⟩

/-- Claim C2: the claim says every `device_addr` in [0, 255] passes the
address check and every address outside fails with `InvalidAddress` before
any transport call.  The coded check `if not 0 >= device_addr <= 255` is
inverted: the in-range address 100 is rejected (with the port untouched,
matching the claim's "before any transport I/O" only vacuously), while the
out-of-range -1 passes the check. -/
theorem c2_address_check_inverted :
    check_device_addr 100 = .error .invalidAddress ∧
    check_device_addr 256 = .error .invalidAddress ∧
    check_device_addr (-1) = .ok () ∧
    check_device_addr 0 = .ok () ∧
    read_do_integers false 100 0 1 (fresh_port [])
        = (.error .invalidAddress, fresh_port []) :=
  ⟨by rfl, by rfl, by rfl, by rfl, by rfl⟩

/-- Claim C4: the claim says decoding with signedness = unsigned yields only
non-negative values, e.g. a 16-bit chunk with its high bit set decodes into
[32768, 65535].  The source's `int_format_char.upper()` discards its result,
so the unpack format stays signed: with `is_signed=False` a response whose
payload is the chunk `0x80 0x00` decodes to -32768. -/
theorem c4_unsigned_decode_returns_negative :
    (read_ao_integers false 0 0 1 "short" false
        (fresh_port ([0, 3, 2, 128, 0] ++ crc16 [0, 3, 2, 128, 0]))).1
      = .ok [-32768] ∧
    ¬(0 : Int) ≤ -32768 :=
  ⟨by rfl, by decide⟩

/-- Claim C10, counterexample: the two bit-read requests do not differ only
at byte offset 1.  At `(device_addr, start, count) = (0, 0, 1)` the two
built requests agree at offset 1 (both 0), and differ at offset 0 (the
function code, displaced there by the `bytes(device_addr)` slip) and at
offset 5 (a CRC byte, which covers the function code). -/
theorem c10_requests_not_only_offset_one :
    (build_request [1] 0 0 1)[1]? = (build_request [2] 0 0 1)[1]? ∧
    (build_request [1] 0 0 1)[0]? ≠ (build_request [2] 0 0 1)[0]? ∧
    (build_request [1] 0 0 1)[5]? ≠ (build_request [2] 0 0 1)[5]? :=
  ⟨by decide, by decide, by decide⟩

/-- Claim C10, amended: the coil (0x01) and discrete-input (0x02) reads are
the same generic pipeline instantiated at different function codes: both
equal `read_bits` at their code for every input and transport state; their
built requests agree on everything before the function-code byte (the
`bytes(device_addr)` zeros) and on the four serialized start/count bytes
after it, carry their own function code at offset `device_addr`, and may
differ besides only in the trailing CRC; validation and bit decoding are
the same procedures parameterized by the function code. -/
theorem c10_generic_bit_read (echo : Bool)
    (device_addr start_reg_addr ints_amount : Nat) (s : PortState) :
    read_do_integers echo device_addr start_reg_addr ints_amount s
        = read_bits echo [1] device_addr start_reg_addr ints_amount s ∧
    read_di_integers echo device_addr start_reg_addr ints_amount s
        = read_bits echo [2] device_addr start_reg_addr ints_amount s ∧
    (build_request [1] device_addr start_reg_addr ints_amount).take device_addr
        = (build_request [2] device_addr start_reg_addr ints_amount).take
            device_addr ∧
    (build_request [1] device_addr start_reg_addr ints_amount)[device_addr]?
        = some 1 ∧
    (build_request [2] device_addr start_reg_addr ints_amount)[device_addr]?
        = some 2 ∧
    ((build_request [1] device_addr start_reg_addr ints_amount).drop
          (device_addr + 1)).take 4
        = ((build_request [2] device_addr start_reg_addr ints_amount).drop
            (device_addr + 1)).take 4 := by
  refine ⟨rfl, rfl, ?_, ?_, ?_, ?_⟩
  · rw [build_request_take_addr, build_request_take_addr]
  · exact build_request_getElem_addr ..
  · exact build_request_getElem_addr ..
  · rw [build_request_middle, build_request_middle]

/-- Claim C3: response validation runs its three checks in a fixed order,
one failure kind each: a zero-length response fails with `NoResponse`;
otherwise a response whose trailing two bytes differ from the CRC-16 of the
rest fails with `CrcMismatch`; otherwise a response whose byte at offset 1
is not the request's function code fails with `UnexpectedFunction`.  The
second clause has no proviso on the function byte, so a frame that is both
CRC-corrupt and function-mismatched reports `CrcMismatch`. -/
theorem c3_validation_order (c : Nat) (response : List Nat) :
    (response.length = 0 →
      check_and_extract [c] response = .error .noResponse) ∧
    (response.length ≠ 0 →
      crc16 (response.take (response.length - 2))
          ≠ response.drop (response.length - 2) →
      check_and_extract [c] response = .error .crcMismatch) ∧
    (response.length ≠ 0 →
      crc16 (response.take (response.length - 2))
          = response.drop (response.length - 2) →
      response[1]? ≠ some c →
      check_and_extract [c] response = .error .unexpectedFunction) := by
  refine ⟨?_, ?_, ?_⟩
  · intro h0
    rw [List.length_eq_zero.mp h0]
    rfl
  · intro h0 hcrc
    have h1 : check_response response = .ok () := by
      unfold check_response
      rw [if_neg h0]
    have h2 : check_crc response = .error .crcMismatch := by
      unfold check_crc
      rw [if_pos hcrc]
    unfold check_and_extract
    rw [h1, h2]
  · intro h0 hcrc hfn
    have h1 : check_response response = .ok () := by
      unfold check_response
      rw [if_neg h0]
    have h2 : check_crc response = .ok () := by
      unfold check_crc
      rw [if_neg (not_not_intro hcrc)]
    have hlen : 2 ≤ response.length := by
      have hl := congrArg List.length hcrc
      simp only [crc16, List.length_cons, List.length_nil,
        List.length_drop] at hl
      omega
    have h3 : check_command [c] response = .error .unexpectedFunction := by
      match response, hlen with
      | a :: b :: t, _ =>
        have hb : b ≠ c := by
          intro hbc
          exact hfn (by simp [hbc])
        unfold check_command
        rw [if_pos (by simpa using hb)]
    unfold check_and_extract
    rw [h1, h2, h3]

/-- Claim C3 witness: a 3-byte garbage response whose CRC and function byte
are both wrong reports the CRC failure, and concrete instances of the other
two clauses. -/
theorem c3_validation_order_witness :
    check_and_extract [3] [] = .error .noResponse ∧
    check_and_extract [3] [1, 2, 3] = .error .crcMismatch ∧
    check_and_extract [3] ([0, 9, 0] ++ crc16 [0, 9, 0])
        = .error .unexpectedFunction :=
  ⟨(c3_validation_order 3 []).1 (by decide),
   (c3_validation_order 3 [1, 2, 3]).2.1 (by decide) (by decide),
   (c3_validation_order 3 ([0, 9, 0] ++ crc16 [0, 9, 0])).2.2
     (by decide) (by decide) (by decide)⟩

/-- Claim C6: any response of at least 5 bytes whose byte at offset 1 is
the request's function code and whose trailing two bytes are the CRC-16 of
all preceding bytes passes validation, which returns exactly the slice
`response[3:-2]` between the 3-byte header and the 2-byte CRC, unmodified.
Validation does not depend on `device_addr`, `start_reg_addr` or
`regs_amount`; note that with the inverted address check the full pipeline
only reaches validation for `device_addr = 0`. -/
theorem c6_validate_round_trip (c : Nat) (response : List Nat)
    (h5 : 5 ≤ response.length)
    (hfn : response[1]? = some c)
    (hcrc : crc16 (response.take (response.length - 2))
        = response.drop (response.length - 2)) :
    check_and_extract [c] response
      = .ok ((response.take (response.length - 2)).drop 3) := by
  have h1 : check_response response = .ok () := by
    unfold check_response
    rw [if_neg (by omega)]
  have h2 : check_crc response = .ok () := by
    unfold check_crc
    rw [if_neg (not_not_intro hcrc)]
  have h3 : check_command [c] response = .ok () := by
    match response, h5 with
    | a :: b :: t, _ =>
      have hb : b = c := by simpa using hfn
      unfold check_command
      rw [if_neg (not_not_intro (by simp [hb]))]
  unfold check_and_extract
  rw [h1, h2, h3]

/-- Claim C6 witness: a concrete well-formed response round-trips to its
payload `[7, 8]`. -/
theorem c6_validate_round_trip_witness :
    check_and_extract [3] ([0, 3, 2, 7, 8] ++ crc16 [0, 3, 2, 7, 8])
      = .ok [7, 8] :=
  (c6_validate_round_trip 3 ([0, 3, 2, 7, 8] ++ crc16 [0, 3, 2, 7, 8])
    (by decide) (by decide) (by decide)).trans (by rfl)

/-- Claim C7: an unrecognized integer-width selector and an unrecognized
float-precision selector make the integer and float reads fail with the
invalid-format error immediately: the returned port state is the input one,
so per the `PortState` log model no write and no read ever happened. -/
theorem c7_invalid_format_no_io (echo : Bool)
    (device_addr start_reg_addr amount : Nat)
    (int_format float_precision : String) (is_signed : Bool) (s : PortState)
    (hi1 : int_format ≠ "short") (hi2 : int_format ≠ "long")
    (hi3 : int_format ≠ "long long")
    (hf1 : float_precision ≠ "float") (hf2 : float_precision ≠ "double") :
    read_ao_integers echo device_addr start_reg_addr amount int_format
        is_signed s = (.error .invalidFormat, s) ∧
    read_ao_floats echo device_addr start_reg_addr amount float_precision s
        = (.error .invalidFormat, s) := by
  constructor
  · unfold read_ao_integers
    rw [if_neg hi1, if_neg hi2, if_neg hi3]
  · unfold read_ao_floats
    rw [if_neg hf1, if_neg hf2]

/-- Claim C7 witness: the unrecognized selectors `"int"` and `"half"` fail
fast on a fresh port, leaving its logs empty. -/
theorem c7_invalid_format_no_io_witness :
    read_ao_integers false 0 0 1 "int" false (fresh_port [])
        = (.error .invalidFormat, fresh_port []) ∧
    read_ao_floats false 0 0 1 "half" (fresh_port [])
        = (.error .invalidFormat, fresh_port []) :=
  c7_invalid_format_no_io false 0 0 1 "int" "half" false (fresh_port [])
    (by decide) (by decide) (by decide) (by decide) (by decide)

/-- Claim C5, counterexample: the claim says that whenever the payload's
highest-order byte has leading zero bits the returned sequence is shorter
than the requested count.  With requested count 1 and payload `0x00 0x05`
(top byte 0, so its leading bits are zero) the coil read returns
`[1, 0, 1]`, of length 3, which is not shorter than 1. -/
theorem c5_not_shorter_than_count :
    (read_do_integers false 0 0 1
        (fresh_port ([0, 1, 2, 0, 5] ++ crc16 [0, 1, 2, 0, 5]))).1
      = .ok [1, 0, 1] ∧
    ¬([1, 0, 1] : List Nat).length < 1 :=
  ⟨by rfl, by decide⟩

/-- Claim C5, amended: the bit decoding shared by the coil and
discrete-input reads returns the binary digit expansion, most significant
bit first, of the payload read as a big-endian unsigned integer (its
reversed digits evaluate back to that integer and every digit is 0 or 1),
and it does not pad: whenever the highest-order payload byte has at least
one leading zero bit the returned sequence is shorter than the payload's
bit width `8 * length`, so its length is in general not the requested
count. -/
theorem c5_bit_decode_drops_leading_zeros (b0 : Nat) (rest : List Nat)
    (hb0 : b0 < 128) (hrest : ∀ b ∈ rest, b < 256) :
    Nat.ofDigits 2 (decode_bits (b0 :: rest)).reverse
        = int_from_bytes_be (b0 :: rest) ∧
    (∀ d ∈ decode_bits (b0 :: rest), d < 2) ∧
    (decode_bits (b0 :: rest)).length < 8 * (b0 :: rest).length := by
  have hall : ∀ b ∈ b0 :: rest, b < 256 :=
    List.forall_mem_cons.mpr ⟨by omega, hrest⟩
  have hbound : int_from_bytes_be (b0 :: rest)
      < 2 ^ (8 * (b0 :: rest).length - 1) := by
    have h1 : int_from_bytes_be (b0 :: rest)
        = rest.foldl (fun a b => a * 256 + b) b0 := by
      unfold int_from_bytes_be
      rw [List.foldl_cons, Nat.zero_mul, Nat.zero_add]
    have h2 := foldl_bytes_lt rest hrest b0
    have h3 : (b0 + 1) * 256 ^ rest.length ≤ 2 ^ (8 * rest.length + 7) := by
      calc (b0 + 1) * 256 ^ rest.length ≤ 128 * 256 ^ rest.length :=
            Nat.mul_le_mul_right _ (by omega)
        _ = 2 ^ 7 * (2 ^ 8) ^ rest.length := by norm_num
        _ = 2 ^ (8 * rest.length + 7) := by
            rw [← Nat.pow_mul, ← Nat.pow_add, Nat.add_comm (8 * rest.length)]
    have h4 : 8 * (b0 :: rest).length - 1 = 8 * rest.length + 7 := by
      simp only [List.length_cons]
      omega
    rw [h1, h4]
    omega
  by_cases hz : int_from_bytes_be (b0 :: rest) = 0
  · have hd0 : decode_bits (b0 :: rest) = [0] := by
      simp [decode_bits, bin_expansion, hz]
    refine ⟨?_, ?_, ?_⟩
    · rw [hd0, hz]
      simp [Nat.ofDigits]
    · rw [hd0]
      simp
    · rw [hd0]
      simp only [List.length_cons, List.length_nil]
      omega
  · have hdig : decode_bits (b0 :: rest)
        = (Nat.digits 2 (int_from_bytes_be (b0 :: rest))).reverse := by
      simp [decode_bits, bin_expansion, hz, bin_digits_eq_digits]
    refine ⟨?_, ?_, ?_⟩
    · rw [hdig, List.reverse_reverse, Nat.ofDigits_digits]
    · intro d hd
      rw [hdig, List.mem_reverse] at hd
      exact Nat.digits_lt_base (by norm_num) hd
    · rw [hdig, List.length_reverse,
        Nat.digits_len 2 _ (by norm_num) hz]
      have hlog := Nat.log_lt_of_lt_pow hz hbound
      have hpos : 1 ≤ (b0 :: rest).length := by simp
      omega

/-- Claim C5 witness: the two-byte payload `0x00 0x05` decodes to the
3-digit expansion of 5, strictly shorter than its 16-bit width. -/
theorem c5_bit_decode_drops_leading_zeros_witness :
    Nat.ofDigits 2 (decode_bits (0 :: [5])).reverse
        = int_from_bytes_be (0 :: [5]) ∧
    (∀ d ∈ decode_bits (0 :: [5]), d < 2) ∧
    (decode_bits (0 :: [5])).length < 8 * ((0 : Nat) :: [5]).length :=
  c5_bit_decode_drops_leading_zeros 0 [5] (by decide) (by decide)

/-- Claim C8: unpacking with the 32-bit signed format (the `long` path of
`read_ao_integers`, 4-byte big-endian chunks read as two's complement)
inverts the spec-side big-endian encoding of any list of signed 32-bit
integers, including the boundary values 0, INT32_MIN and INT32_MAX. -/
theorem c8_int32_round_trip (l : List Int)
    (hl : ∀ i ∈ l, -(2 ^ 31) ≤ i ∧ i < 2 ^ 31) :
    unpack_ints 4 l.length (l.flatMap encode_int32_be) = l := by
  induction l with
  | nil => rfl
  | cons a t ih =>
      have ha := hl a (List.mem_cons_self ..)
      have ht : ∀ i ∈ t, -(2 ^ 31) ≤ i ∧ i < 2 ^ 31 :=
        fun i hi => hl i (List.mem_cons_of_mem _ hi)
      rw [List.flatMap_cons, List.length_cons,
        unpack_ints_cons 4 t.length _ _ (by rfl),
        toSigned_encode_int32 a ha.1 ha.2, ih ht]

/-- Claim C8 witness: the boundary list `[0, INT32_MIN, INT32_MAX]`
round-trips. -/
theorem c8_int32_round_trip_witness :
    unpack_ints 4 3
        (([0, -2147483648, 2147483647] : List Int).flatMap encode_int32_be)
      = [0, -2147483648, 2147483647] :=
  c8_int32_round_trip [0, -2147483648, 2147483647] (by decide)

/-- Claim C9: whenever a read operation reaches the transport (an address
accepted by the coded check, echo off), it asks `port.read` for exactly
`count * 2 + 5` bytes in the two bit-reading operations and
`regs_amount * 2 + 5` bytes in the integer and float operations, where
`regs_amount` is `count` for 16-bit values (`short`), `count * 2` for
32-bit values (`long`, `float`) and `count * 4` for 64-bit values
(`long long`, `double`). -/
theorem c9_expected_read_length (device_addr start_reg_addr count : Nat)
    (is_signed : Bool) (s : PortState)
    (haddr : check_device_addr (device_addr : Int) = .ok ())
    (h0 : s.reads = []) :
    (read_do_integers false device_addr start_reg_addr count s).2.reads
        = [count * 2 + 5] ∧
    (read_di_integers false device_addr start_reg_addr count s).2.reads
        = [count * 2 + 5] ∧
    (read_ao_integers false device_addr start_reg_addr count "short"
        is_signed s).2.reads = [count * 2 + 5] ∧
    (read_ao_integers false device_addr start_reg_addr count "long"
        is_signed s).2.reads = [count * 2 * 2 + 5] ∧
    (read_ao_integers false device_addr start_reg_addr count "long long"
        is_signed s).2.reads = [count * 4 * 2 + 5] ∧
    (read_ao_floats false device_addr start_reg_addr count "float"
        s).2.reads = [count * 2 * 2 + 5] ∧
    (read_ao_floats false device_addr start_reg_addr count "double"
        s).2.reads = [count * 4 * 2 + 5] := by
  refine ⟨?_, ?_, ?_, ?_, ?_, ?_, ?_⟩
  · rw [read_do_integers, map_ok_snd, return_bytes_reads _ _ _ _ _ haddr, h0]
    rfl
  · rw [read_di_integers, map_ok_snd, return_bytes_reads _ _ _ _ _ haddr, h0]
    rfl
  · show (map_ok (unpack_ints 2 count) (return_bytes false [3] device_addr
        start_reg_addr count s)).2.reads = [count * 2 + 5]
    rw [map_ok_snd, return_bytes_reads _ _ _ _ _ haddr, h0]
    rfl
  · show (map_ok (unpack_ints 4 count) (return_bytes false [3] device_addr
        start_reg_addr (count * 2) s)).2.reads = [count * 2 * 2 + 5]
    rw [map_ok_snd, return_bytes_reads _ _ _ _ _ haddr, h0]
    rfl
  · show (map_ok (unpack_ints 8 count) (return_bytes false [3] device_addr
        start_reg_addr (count * 4) s)).2.reads = [count * 4 * 2 + 5]
    rw [map_ok_snd, return_bytes_reads _ _ _ _ _ haddr, h0]
    rfl
  · show (map_ok (chunk_bytes 4 count) (return_bytes false [3] device_addr
        start_reg_addr (count * 2) s)).2.reads = [count * 2 * 2 + 5]
    rw [map_ok_snd, return_bytes_reads _ _ _ _ _ haddr, h0]
    rfl
  · show (map_ok (chunk_bytes 8 count) (return_bytes false [3] device_addr
        start_reg_addr (count * 4) s)).2.reads = [count * 4 * 2 + 5]
    rw [map_ok_snd, return_bytes_reads _ _ _ _ _ haddr, h0]
    rfl

/-- Claim C9 witness: with `device_addr = 0` and `count = 3` on a fresh
port, the logged read lengths are 11 bytes for the bit reads and
11/17/29 bytes for the register reads. -/
theorem c9_expected_read_length_witness :
    (read_do_integers false 0 0 3 (fresh_port [])).2.reads = [11] ∧
    (read_di_integers false 0 0 3 (fresh_port [])).2.reads = [11] ∧
    (read_ao_integers false 0 0 3 "short" true (fresh_port [])).2.reads
        = [11] ∧
    (read_ao_integers false 0 0 3 "long" true (fresh_port [])).2.reads
        = [17] ∧
    (read_ao_integers false 0 0 3 "long long" true (fresh_port [])).2.reads
        = [29] ∧
    (read_ao_floats false 0 0 3 "float" (fresh_port [])).2.reads = [17] ∧
    (read_ao_floats false 0 0 3 "double" (fresh_port [])).2.reads = [29] :=
  c9_expected_read_length 0 0 3 true (fresh_port []) (by rfl) (by rfl)

end ModbusRtuLib
